import Mathlib

/-!
# docs-sign: Dashboard view-model and ProtectedRoute

A shallow embedding of `src/Dashboard.jsx` and `src/ProtectedRoute.jsx`.

* The six `useState` cells of `Dashboard` become the fields of `DashboardState`.
* Every handler is a function from the state (and, for the asynchronous
  handlers, the outcome of the awaited `apiConnector` call) to the next state
  together with the toasts it raises.  The state writes of an asynchronous
  handler are either constant writes or a functional update, so they are
  applied to the state current when the awaited call settles.
* Along a trace of events an asynchronous handler takes two events: the click
  that starts the call, which needs its button to be rendered, and the
  settlement of the call, whose writes land whatever is rendered by then.
* JavaScript strings are `String`; `===` and `!==` on them are `=` and `≠`.
-/

namespace DocsSign

/-! ## Data model -/

/-- A document as read by `Dashboard.jsx`: the fields `_id`, `filename`,
`filepath` and `status` of an element of `res.documents`. -/
structure Document where
  _id : String
  filename : String
  filepath : String
  status : String
deriving DecidableEq, Repr

/-- The two toast channels used by the dashboard. -/
inductive ToastKind where
  | success
  | error
deriving DecidableEq, Repr

/-- One call `toast.success(message)` or `toast.error(message)`. -/
structure Toast where
  kind : ToastKind
  message : String
deriving DecidableEq, Repr

/-- The value of `res?.documents` as seen by `Array.isArray`: an array of
documents, or anything else (undefined, null, a non-array value). -/
inductive DocumentsField where
  | notArray
  | array (docs : List Document)
deriving DecidableEq, Repr

/-- The value `res` that `apiConnector("get", DOCUMENT_API.LIST, ...)` resolves
to: nullish (so that `res?.documents` is undefined) or an object with a
`documents` field. -/
inductive ListResponse where
  | nullish
  | object (documents : DocumentsField)
deriving DecidableEq, Repr

/-- How an awaited `apiConnector` promise settles. -/
inductive ApiOutcome (α : Type) where
  | rejected
  | resolved (res : α)
deriving DecidableEq, Repr

/-- The `useState` cells of `Dashboard` (lines 19-24). -/
structure DashboardState where
  documents : List Document
  selectedDoc : Option Document
  filterStatus : String
  showEmailModal : Bool
  email : String
  docToRequest : Option Document
deriving DecidableEq, Repr

/-- The initial values passed to `useState` at mount. -/
def initialState : DashboardState :=
  { documents := []
    selectedDoc := none
    filterStatus := "All"
    showEmailModal := false
    email := ""
    docToRequest := none }

/-! ## Derived view and handlers -/

/-- The labels of the sidebar filter buttons (line 81). -/
def statusFilters : List String := ["All", "Pending", "Signed", "Rejected"]

/-- Lines 45-47: `documents.filter((doc) => filterStatus === "All" ||
doc.status === filterStatus)`. -/
def filteredDocs (documents : List Document) (filterStatus : String) : List Document :=
  documents.filter (fun doc => decide (filterStatus = "All") || decide (doc.status = filterStatus))

/-- The expression `res?.documents`. -/
def ListResponse.documentsField : ListResponse → DocumentsField
  | .nullish => .notArray
  | .object d => d

/-- Lines 26-39: `fetchDocuments`. -/
def fetchDocuments (remote : ApiOutcome ListResponse) (s : DashboardState) :
    DashboardState × List Toast :=
  match remote with
  | .resolved res =>
    match res.documentsField with
    | .array docs => ({ s with documents := docs }, [])
    | .notArray => (s, [⟨.error, "Unexpected response from server"⟩])
  | .rejected => (s, [⟨.error, "Failed to fetch documents"⟩])

/-- Line 54: the functional update `(prev) => prev.filter((doc) => doc._id !== docId)`. -/
def removeById (docId : String) (prev : List Document) : List Document :=
  prev.filter (fun doc => decide (doc._id ≠ docId))

/-- Lines 49-59: `handleDelete`. -/
def handleDelete (docId : String) (remote : ApiOutcome Unit) (s : DashboardState) :
    DashboardState × List Toast :=
  match remote with
  | .resolved _ =>
    ({ s with documents := removeById docId s.documents },
      [⟨.success, "Deleted successfully"⟩])
  | .rejected => (s, [⟨.error, "Delete failed"⟩])

/-- The `try`/`catch` part of `sendSignatureLink` (lines 62-70): reading
`docToRequest._id` of a null target throws inside the `try`, like a rejected
call, and is caught. -/
def sendToasts (remote : ApiOutcome Unit) (s : DashboardState) : List Toast :=
  match s.docToRequest, remote with
  | some _, .resolved _ => [⟨.success, "Request sent"⟩]
  | some _, .rejected => [⟨.error, "Send failed"⟩]
  | none, _ => [⟨.error, "Send failed"⟩]

/-- Lines 61-74: `sendSignatureLink`; the `finally` block writes `email` and
`showEmailModal` on every path. -/
def sendSignatureLink (remote : ApiOutcome Unit) (s : DashboardState) :
    DashboardState × List Toast :=
  ({ s with email := "", showEmailModal := false }, sendToasts remote s)

/-- Line 84: a sidebar button, `setFilterStatus(status)`. -/
def setFilterStatus (status : String) (s : DashboardState) : DashboardState :=
  { s with filterStatus := status }

/-- Line 129: the Edit button, `setSelectedDoc(doc)`. -/
def editClick (doc : Document) (s : DashboardState) : DashboardState :=
  { s with selectedDoc := some doc }

/-- Lines 135-138: the Request button, `setDocToRequest(doc); setShowEmailModal(true)`. -/
def requestClick (doc : Document) (s : DashboardState) : DashboardState :=
  { s with docToRequest := some doc, showEmailModal := true }

/-- Line 159: the `goBack` callback handed to `PDFEditor`, `setSelectedDoc(null)`. -/
def goBack (s : DashboardState) : DashboardState :=
  { s with selectedDoc := none }

/-- Line 172: the input's `onChange`, `setEmail(e.target.value)`. -/
def emailChange (value : String) (s : DashboardState) : DashboardState :=
  { s with email := value }

/-- Line 178: the Cancel button, `setShowEmailModal(false)`. -/
def cancelClick (s : DashboardState) : DashboardState :=
  { s with showEmailModal := false }

/-! ## Event traces -/

/-- A mounted `Dashboard` between two events: the state cells, the identifiers
passed to the `handleDelete` calls whose request is in flight, and, for every
`sendSignatureLink` call whose request is in flight, the state of the render
whose Send button was clicked (the handler closes over its `docToRequest` and
`email`). -/
structure Session where
  ui : DashboardState
  deleting : List String
  sending : List DashboardState
deriving DecidableEq, Repr

/-- The session at mount: initial cells, nothing in flight. -/
def initialSession : Session :=
  { ui := initialState, deleting := [], sending := [] }

/-- What can happen to a mounted `Dashboard`.  `fetch` is the settlement of a
`fetchDocuments` call (started by the mount effect or by `onUploadSuccess`);
`deleteClick` and `sendClick` start an asynchronous handler, `deleteSettle`
and `sendSettle` are the settlement of its awaited call (`sendSettle k` that
of the in-flight call number `k`). -/
inductive Event where
  | fetch (remote : ApiOutcome ListResponse)
  | filter (status : String)
  | edit (doc : Document)
  | request (doc : Document)
  | deleteClick (docId : String)
  | deleteSettle (docId : String) (remote : ApiOutcome Unit)
  | goBack
  | emailChange (value : String)
  | cancel
  | sendClick
  | sendSettle (k : Nat) (remote : ApiOutcome Unit)
deriving DecidableEq, Repr

/-- Whether the event can happen in session `t`.  A click needs its control to
be rendered: the filter buttons offer only `statusFilters`; Edit, Request and
Delete exist once per element of `filteredDocs`; `PDFEditor` is mounted only
under `selectedDoc &&`; the input, Cancel and Send only under
`showEmailModal &&`.  A settlement needs only its call to be in flight. -/
def Event.enabled (t : Session) : Event → Bool
  | .fetch _ => true
  | .filter status => decide (status ∈ statusFilters)
  | .edit doc => decide (doc ∈ filteredDocs t.ui.documents t.ui.filterStatus)
  | .request doc => decide (doc ∈ filteredDocs t.ui.documents t.ui.filterStatus)
  | .deleteClick docId =>
    (filteredDocs t.ui.documents t.ui.filterStatus).any (fun doc => decide (doc._id = docId))
  | .deleteSettle docId _ => decide (docId ∈ t.deleting)
  | .goBack => t.ui.selectedDoc.isSome
  | .emailChange _ => t.ui.showEmailModal
  | .cancel => t.ui.showEmailModal
  | .sendClick => t.ui.showEmailModal
  | .sendSettle k _ => decide (k < t.sending.length)

/-- The effect of each event.  A click on Delete only starts the call.  A
click on Send starts the call when there is a target; with a null target
`docToRequest._id` throws before any call is made, so `catch` and `finally`
run within the click.  A settlement runs the rest of the handler on the cells
current at that moment; the toast of a settled Send is decided by the render
the handler closed over. -/
def Event.handle (t : Session) : Event → Session × List Toast
  | .fetch remote =>
    ({ t with ui := (fetchDocuments remote t.ui).1 }, (fetchDocuments remote t.ui).2)
  | .filter status => ({ t with ui := setFilterStatus status t.ui }, [])
  | .edit doc => ({ t with ui := editClick doc t.ui }, [])
  | .request doc => ({ t with ui := requestClick doc t.ui }, [])
  | .deleteClick docId => ({ t with deleting := docId :: t.deleting }, [])
  | .deleteSettle docId remote =>
    ({ t with ui := (handleDelete docId remote t.ui).1, deleting := t.deleting.erase docId },
      (handleDelete docId remote t.ui).2)
  | .goBack => ({ t with ui := DocsSign.goBack t.ui }, [])
  | .emailChange value => ({ t with ui := DocsSign.emailChange value t.ui }, [])
  | .cancel => ({ t with ui := cancelClick t.ui }, [])
  | .sendClick =>
    match t.ui.docToRequest with
    | some _ => ({ t with sending := t.sending ++ [t.ui] }, [])
    | none =>
      ({ t with ui := (sendSignatureLink .rejected t.ui).1 },
        (sendSignatureLink .rejected t.ui).2)
  | .sendSettle k remote =>
    ({ t with ui := (sendSignatureLink remote t.ui).1, sending := t.sending.eraseIdx k },
      sendToasts remote (t.sending.getD k t.ui))

/-- One event: an event that cannot happen leaves the session as it is. -/
def step (t : Session) (e : Event) : Session :=
  if e.enabled t then (e.handle t).1 else t

/-- The session after a sequence of events. -/
def run (t : Session) (es : List Event) : Session :=
  es.foldl step t

/-- A state of a mounted `Dashboard`: the cells that some sequence of events
leads to from the session at mount. -/
def Reachable (s : DashboardState) : Prop :=
  ∃ es : List Event, (run initialSession es).ui = s

/-- Whether the event is a click on a Request button. -/
def Event.isRequest : Event → Bool
  | .request _ => true
  | _ => false

/-- The identifiers of a collection, in order. -/
def ids (docs : List Document) : List String :=
  docs.map (fun doc => doc._id)

/-! ## ProtectedRoute -/

/-- What a component renders: some element tree, or `<Navigate to=... />`. -/
inductive View where
  | element (name : String)
  | navigate (target : String)
deriving DecidableEq, Repr

/-- The `auth` slice of the store: the flag read by the selector, and whatever
else the slice holds, which the selector does not read. -/
structure AuthState where
  isAuthenticated : Bool
  others : List (String × String)
deriving DecidableEq, Repr

/-- The store state handed to the selector of `useSelector`: the `auth` slice
and the remaining slices, which the selector does not read. -/
structure RootState where
  auth : AuthState
  slices : List (String × String)
deriving DecidableEq, Repr

/-- Lines 4-8 of `ProtectedRoute.jsx`:
`isAuthenticated ? children : <Navigate to="/login" />`. -/
def ProtectedRoute (state : RootState) (children : View) : View :=
  if state.auth.isAuthenticated then children else View.navigate "/login"

/-! ## Sample data -/

/-- A document with the given identifier and status, as in the examples
`{id:1,status:Pending}`. -/
def sampleDoc (id status : String) : Document :=
  { _id := id, filename := "", filepath := "", status := status }

/-- A state whose collection is `docs` and whose other cells are at their
initial values. -/
def stateWith (docs : List Document) : DashboardState :=
  { initialState with documents := docs }

/-- The first sample document. -/
def docA : Document := sampleDoc "1" "Pending"

/-- The second sample document. -/
def docB : Document := sampleDoc "2" "Signed"

/-- A load that returns the two sample documents. -/
def loadAB : Event :=
  .fetch (.resolved (.object (.array [docA, docB])))

/-- Load, open the modal for `docA`, type an address, Cancel, open the modal
for `docB`. -/
def reopenAfterCancel : List Event :=
  [loadAB, .request docA, .emailChange "a@b.c", .cancel, .request docB]

/-- Load, open the modal for `docA`, Cancel. -/
def openThenCancel : List Event :=
  [loadAB, .request docA, .cancel]

/-- Load, open the modal for `docA`, click Send, the call resolves. -/
def openThenSend : List Event :=
  [loadAB, .request docA, .sendClick, .sendSettle 0 (.resolved ())]

/-- Load, open the modal for `docA`, type an address, click Send, the call
resolves, open the modal for `docB`. -/
def reopenAfterSend : List Event :=
  [loadAB, .request docA, .emailChange "a@b.c", .sendClick, .sendSettle 0 (.resolved ()),
    .request docB]

/-- Load, open the modal for `docA`, type an address. -/
def openAndType : List Event :=
  [loadAB, .request docA, .emailChange "a@b.c"]

/-- Load, click Delete on `docA`, switch the filter to Signed so that `docA`
is no longer rendered, then the delete call resolves. -/
def deleteSettlesUnrendered : List Event :=
  [loadAB, .deleteClick "1", .filter "Signed", .deleteSettle "1" (.resolved ())]

/-- Load, open the modal for `docA`, click Send, Cancel, open the modal for
`docB`, type an address, then the first call settles. -/
def sendSettlesLate : List Event :=
  [loadAB, .request docA, .sendClick, .cancel, .request docB, .emailChange "a@b.c",
    .sendSettle 0 .rejected]

/-- After a load: type nothing, Cancel, Edit `docB`, go back, filter Signed,
click Delete on `docB` and let the call resolve; no Request among them. -/
def noRequestEvents : List Event :=
  [.cancel, .edit docB, .goBack, .filter "Signed", .deleteClick "2",
    .deleteSettle "2" (.resolved ()), .fetch .rejected]

/-- A load whose response holds two documents with the same identifier. -/
def duplicateLoad : List Event :=
  [.fetch (.resolved (.object (.array [sampleDoc "1" "Pending", sampleDoc "1" "Signed"])))]

/-- Whether an event, if it is a load whose response carries an array, carries
one with pairwise distinct identifiers; every other event passes. -/
def Event.loadsUnique : Event → Bool
  | .fetch (.resolved res) =>
    match res.documentsField with
    | .array docs => decide ((ids docs).Nodup)
    | .notArray => true
  | _ => true

/-- A store state with the given authentication flag and nothing else. -/
def storeWith (flag : Bool) : RootState :=
  { auth := { isAuthenticated := flag, others := [] }, slices := [] }

/-! ## Helper lemmas -/

theorem filteredDocs_all (C : List Document) : filteredDocs C "All" = C := by
  simp [filteredDocs]

theorem filteredDocs_ne_all (C : List Document) (F : String) (hF : F ≠ "All") :
    filteredDocs C F = C.filter (fun doc => decide (doc.status = F)) := by
  simp [filteredDocs, hF]

theorem filteredDocs_sublist (C : List Document) (F : String) :
    List.Sublist (filteredDocs C F) C := by
  unfold filteredDocs
  exact List.filter_sublist C

theorem mem_removeById (docId : String) (C : List Document) (d : Document) :
    d ∈ removeById docId C ↔ d ∈ C ∧ d._id ≠ docId := by
  simp [removeById]

theorem removeById_of_absent (docId : String) (C : List Document)
    (h : ∀ d ∈ C, d._id ≠ docId) : removeById docId C = C := by
  unfold removeById
  rw [List.filter_eq_self]
  intro d hd
  simpa using h d hd

theorem removeById_idem (docId : String) (C : List Document) :
    removeById docId (removeById docId C) = removeById docId C :=
  removeById_of_absent docId _ (fun d hd => ((mem_removeById docId C d).1 hd).2)

theorem ids_removeById_nodup (docId : String) (C : List Document)
    (h : (ids C).Nodup) : (ids (removeById docId C)).Nodup := by
  unfold ids removeById at *
  exact List.Nodup.sublist (List.Sublist.map _ (List.filter_sublist C)) h

/-! ## Filter -/

/-- C1: for every collection `C` and every filter `F`, in particular each of
the sidebar labels All, Pending, Signed, Rejected, `filteredDocs C F` is `C`
itself when `F` is All, and otherwise is exactly the documents of `C` whose
status equals `F`, in the order of `C`: it is a sublist of `C`, it holds
precisely the documents of `C` with status `F`, and it is the order-preserving
selection of them.  On `[{id:1,status:Pending},{id:2,status:Signed}]` with
filter Signed the view is `[{id:2,status:Signed}]`. -/
theorem filteredDocs_exact (C : List Document) (F : String) :
    (F = "All" → filteredDocs C F = C) ∧
    (F ≠ "All" →
      filteredDocs C F = C.filter (fun doc => decide (doc.status = F)) ∧
      (∀ d, d ∈ filteredDocs C F ↔ d ∈ C ∧ d.status = F)) ∧
    List.Sublist (filteredDocs C F) C ∧
    filteredDocs [sampleDoc "1" "Pending", sampleDoc "2" "Signed"] "Signed"
      = [sampleDoc "2" "Signed"] := by
  refine ⟨?_, ?_, filteredDocs_sublist C F, by decide⟩
  · intro h
    subst h
    exact filteredDocs_all C
  · intro h
    refine ⟨filteredDocs_ne_all C F h, ?_⟩
    intro d
    rw [filteredDocs_ne_all C F h]
    simp

/-- Witness for C1 at the filter Rejected on a three-document collection. -/
theorem filteredDocs_exact_witness :
    "Rejected" ∈ statusFilters ∧
    filteredDocs [sampleDoc "1" "Rejected", sampleDoc "2" "Signed", sampleDoc "3" "Rejected"]
        "Rejected"
      = [sampleDoc "1" "Rejected", sampleDoc "3" "Rejected"] := by
  have h := filteredDocs_exact
    [sampleDoc "1" "Rejected", sampleDoc "2" "Signed", sampleDoc "3" "Rejected"]
    "Rejected"
  refine ⟨by decide, ?_⟩
  rw [(h.2.1 (by decide)).1]
  decide

/-! ## Delete -/

/-- C2: a `handleDelete docId` whose remote call resolves removes exactly the
documents with that identifier: the new collection is the order-preserving
selection of the documents of `C` whose identifier differs from `docId`, so it
has no document with identifier `docId`, keeps every other document of `C`, is
a sublist of `C`, and no other state cell changes.  A successful delete of 2
on `[{id:1},{id:2}]` gives `[{id:1}]`. -/
theorem handleDelete_success (s : DashboardState) (docId : String) (u : Unit) :
    (handleDelete docId (.resolved u) s).1.documents
        = s.documents.filter (fun doc => decide (doc._id ≠ docId)) ∧
    (∀ d ∈ (handleDelete docId (.resolved u) s).1.documents, d._id ≠ docId) ∧
    (∀ d ∈ s.documents, d._id ≠ docId →
      d ∈ (handleDelete docId (.resolved u) s).1.documents) ∧
    List.Sublist (handleDelete docId (.resolved u) s).1.documents s.documents ∧
    (handleDelete docId (.resolved u) s).1
        = { s with documents := (handleDelete docId (.resolved u) s).1.documents } ∧
    (handleDelete docId (.resolved u) s).2 = [⟨.success, "Deleted successfully"⟩] ∧
    (handleDelete "2" (.resolved ()) (stateWith [sampleDoc "1" "Pending", sampleDoc "2" "Pending"])).1
        = stateWith [sampleDoc "1" "Pending"] := by
  refine ⟨rfl, ?_, ?_, ?_, rfl, rfl, by decide⟩
  · intro d hd
    exact ((mem_removeById docId s.documents d).1 hd).2
  · intro d hd hne
    exact (mem_removeById docId s.documents d).2 ⟨hd, hne⟩
  · exact List.filter_sublist s.documents

/-- Witness for C2: deleting identifier 2 keeps document 3, which has another
identifier. -/
theorem handleDelete_success_witness :
    sampleDoc "3" "Signed" ∈
      (handleDelete "2" (.resolved ())
        (stateWith [sampleDoc "2" "Pending", sampleDoc "3" "Signed"])).1.documents :=
  (handleDelete_success (stateWith [sampleDoc "2" "Pending", sampleDoc "3" "Signed"]) "2" ()).2.2.1
    (sampleDoc "3" "Signed") (by decide) (by decide)

/-- C9: the local effect of a successful delete is idempotent: applying
`handleDelete docId` with a resolved call twice gives the same state as
applying it once, and on a collection with no document of identifier `docId`
the update leaves the collection unchanged. -/
theorem handleDelete_idempotent (s : DashboardState) (docId : String) (u v : Unit) :
    (handleDelete docId (.resolved v) (handleDelete docId (.resolved u) s).1).1
        = (handleDelete docId (.resolved u) s).1 ∧
    removeById docId (removeById docId s.documents) = removeById docId s.documents ∧
    ((∀ d ∈ s.documents, d._id ≠ docId) →
      (handleDelete docId (.resolved u) s).1 = s) := by
  refine ⟨?_, removeById_idem docId s.documents, ?_⟩
  · simp only [handleDelete]
    rw [removeById_idem]
  · intro h
    simp only [handleDelete]
    rw [removeById_of_absent docId s.documents h]

/-- Witness for C9: identifier 7 is absent, so the delete changes nothing. -/
theorem handleDelete_idempotent_witness :
    (handleDelete "7" (.resolved ()) (stateWith [sampleDoc "1" "Pending"])).1
      = stateWith [sampleDoc "1" "Pending"] :=
  (handleDelete_idempotent (stateWith [sampleDoc "1" "Pending"]) "7" () ()).2.2 (by decide)

/-! ## Load -/

/-- C8: when `fetchDocuments` receives a response whose `documents` field is
the array `S`, the local collection becomes `S` itself (same elements, same
order, duplicates kept), whatever the prior collection was; the other state
cells are untouched and no toast is raised. -/
theorem fetchDocuments_success (s : DashboardState) (S : List Document) :
    (fetchDocuments (.resolved (.object (.array S))) s).1.documents = S ∧
    (fetchDocuments (.resolved (.object (.array S))) s).1 = { s with documents := S } ∧
    (fetchDocuments (.resolved (.object (.array S))) s).2 = [] ∧
    (fetchDocuments
        (.resolved (.object (.array [sampleDoc "1" "Signed", sampleDoc "1" "Signed"])))
        (stateWith [sampleDoc "9" "Pending"])).1.documents
      = [sampleDoc "1" "Signed", sampleDoc "1" "Signed"] :=
  ⟨rfl, rfl, rfl, rfl⟩

/-- C3: a failing load (the call rejects, or the response is nullish, or its
`documents` field is not an array) and a delete whose call rejects leave the
whole state, and so the local collection, exactly as it was, and each raises
exactly one error toast. -/
theorem failure_keeps_collection (s : DashboardState) (docId : String) :
    fetchDocuments .rejected s = (s, [⟨.error, "Failed to fetch documents"⟩]) ∧
    fetchDocuments (.resolved .nullish) s
      = (s, [⟨.error, "Unexpected response from server"⟩]) ∧
    fetchDocuments (.resolved (.object .notArray)) s
      = (s, [⟨.error, "Unexpected response from server"⟩]) ∧
    handleDelete docId .rejected s = (s, [⟨.error, "Delete failed"⟩]) ∧
    (∀ remote : ApiOutcome ListResponse,
      (∀ S, remote ≠ .resolved (.object (.array S))) →
        (fetchDocuments remote s).1.documents = s.documents ∧
        ∃ msg, (fetchDocuments remote s).2 = [⟨.error, msg⟩]) := by
  refine ⟨rfl, rfl, rfl, rfl, ?_⟩
  intro remote h
  match remote, h with
  | .rejected, _ => exact ⟨rfl, _, rfl⟩
  | .resolved .nullish, _ => exact ⟨rfl, _, rfl⟩
  | .resolved (.object .notArray), _ => exact ⟨rfl, _, rfl⟩
  | .resolved (.object (.array S)), h => exact absurd rfl (h S)

/-- Witness for C3: a nullish response is not a successful load, and the
collection is kept. -/
theorem failure_keeps_collection_witness :
    (fetchDocuments (.resolved .nullish) (stateWith [sampleDoc "1" "Pending"])).1.documents
      = [sampleDoc "1" "Pending"] :=
  ((failure_keeps_collection (stateWith [sampleDoc "1" "Pending"]) "1").2.2.2.2
    (.resolved .nullish) (fun _ h => by cases h)).1

/-! ## Invariants along event traces -/

theorem run_invariant (P : Session → Prop) (Q : Event → Prop)
    (hstep : ∀ t e, Q e → P t → P (step t e)) :
    ∀ (es : List Event) (t : Session), (∀ e ∈ es, Q e) → P t → P (run t es) := by
  intro es
  induction es with
  | nil => intro t _ ht; exact ht
  | cons e es ih =>
    intro t hQ ht
    have hrun : run t (e :: es) = run (step t e) es := rfl
    rw [hrun]
    exact ih (step t e) (fun x hx => hQ x (List.mem_cons_of_mem e hx))
      (hstep t e (hQ e (List.mem_cons_self e es)) ht)

theorem fetchDocuments_modal (remote : ApiOutcome ListResponse) (s : DashboardState) :
    (fetchDocuments remote s).1.showEmailModal = s.showEmailModal ∧
    (fetchDocuments remote s).1.docToRequest = s.docToRequest := by
  match remote with
  | .rejected => exact ⟨rfl, rfl⟩
  | .resolved .nullish => exact ⟨rfl, rfl⟩
  | .resolved (.object .notArray) => exact ⟨rfl, rfl⟩
  | .resolved (.object (.array _)) => exact ⟨rfl, rfl⟩

theorem handleDelete_modal (docId : String) (remote : ApiOutcome Unit) (s : DashboardState) :
    (handleDelete docId remote s).1.showEmailModal = s.showEmailModal ∧
    (handleDelete docId remote s).1.docToRequest = s.docToRequest := by
  cases remote <;> exact ⟨rfl, rfl⟩

theorem handle_keeps_target (t : Session) (e : Event) (h : e.isRequest = false) :
    (e.handle t).1.ui.docToRequest = t.ui.docToRequest := by
  cases e with
  | fetch remote => exact (fetchDocuments_modal remote t.ui).2
  | deleteSettle docId remote => exact (handleDelete_modal docId remote t.ui).2
  | request doc => simp [Event.isRequest] at h
  | sendClick =>
    simp only [Event.handle]
    split <;> rfl
  | filter status => rfl
  | edit doc => rfl
  | deleteClick docId => rfl
  | goBack => rfl
  | emailChange value => rfl
  | cancel => rfl
  | sendSettle k remote => rfl

theorem step_keeps_target (t : Session) (e : Event) (h : e.isRequest = false) :
    (step t e).ui.docToRequest = t.ui.docToRequest := by
  unfold step
  split
  · exact handle_keeps_target t e h
  · rfl

theorem run_keeps_target (t : Session) (es : List Event)
    (h : ∀ e ∈ es, e.isRequest = false) :
    (run t es).ui.docToRequest = t.ui.docToRequest :=
  run_invariant (fun x => x.ui.docToRequest = t.ui.docToRequest)
    (fun e => e.isRequest = false)
    (fun x e he hx => (step_keeps_target x e he).trans hx) es t h rfl

theorem step_open_has_target (t : Session) (e : Event)
    (h : t.ui.showEmailModal = true → t.ui.docToRequest.isSome = true) :
    (step t e).ui.showEmailModal = true → (step t e).ui.docToRequest.isSome = true := by
  unfold step
  split
  · cases e with
    | fetch remote =>
      simp only [Event.handle]
      rw [(fetchDocuments_modal remote t.ui).1, (fetchDocuments_modal remote t.ui).2]
      exact h
    | deleteSettle docId remote =>
      simp only [Event.handle]
      rw [(handleDelete_modal docId remote t.ui).1, (handleDelete_modal docId remote t.ui).2]
      exact h
    | sendClick =>
      simp only [Event.handle]
      split
      · exact h
      · intro hc; cases hc
    | filter status => exact h
    | edit doc => exact h
    | request doc => intro _; rfl
    | deleteClick docId => exact h
    | goBack => exact h
    | emailChange value => exact h
    | cancel => intro hc; cases hc
    | sendSettle k remote => intro hc; cases hc
  · exact h

theorem reachable_open_has_target (s : DashboardState) (hR : Reachable s)
    (hOpen : s.showEmailModal = true) : ∃ d, s.docToRequest = some d := by
  obtain ⟨es, rfl⟩ := hR
  have h := run_invariant
    (fun t => t.ui.showEmailModal = true → t.ui.docToRequest.isSome = true) (fun _ => True)
    (fun t e _ ht => step_open_has_target t e ht) es initialSession (fun _ _ => trivial)
    (by intro hc; cases hc)
  exact Option.isSome_iff_exists.1 (h hOpen)

theorem step_ids_nodup (t : Session) (e : Event) (hU : e.loadsUnique = true)
    (h : (ids t.ui.documents).Nodup) : (ids (step t e).ui.documents).Nodup := by
  unfold step
  split
  · cases e with
    | fetch remote =>
      match remote, hU with
      | .rejected, _ => exact h
      | .resolved .nullish, _ => exact h
      | .resolved (.object .notArray), _ => exact h
      | .resolved (.object (.array docs)), hU =>
        simpa [Event.loadsUnique, ListResponse.documentsField] using hU
    | deleteSettle docId remote =>
      cases remote with
      | rejected => exact h
      | resolved u => exact ids_removeById_nodup docId t.ui.documents h
    | sendClick =>
      simp only [Event.handle]
      split <;> exact h
    | filter status => exact h
    | edit doc => exact h
    | request doc => exact h
    | deleteClick docId => exact h
    | goBack => exact h
    | emailChange value => exact h
    | cancel => exact h
    | sendSettle k remote => exact h
  · exact h

/-! ## Settlements land whatever is rendered -/

theorem deleteSettlesUnrendered_removes :
    (run initialSession deleteSettlesUnrendered).ui.documents = [docB] ∧
    (run initialSession deleteSettlesUnrendered).ui.filterStatus = "Signed" := by
  decide

theorem sendSettlesLate_resets :
    (run initialSession sendSettlesLate).ui.email = "" ∧
    (run initialSession sendSettlesLate).ui.showEmailModal = false ∧
    (run initialSession sendSettlesLate).ui.docToRequest = some docB := by
  decide

/-! ## Signature-request modal -/

/-- C4: in every state in which the signature-request modal is open, whatever
the pending target and the email buffer, `sendSignatureLink` ends with the
modal closed and the email buffer empty, both when the remote call resolves
and when it rejects; the two outcomes give the same state, which differs from
the prior one in those two cells only, and they differ in the toast alone: an
error toast when the call rejects, a success toast when it resolves for a
pending target, which every reachable state with the modal open has. -/
theorem sendSignatureLink_resets (s : DashboardState) (hOpen : s.showEmailModal = true)
    (u : Unit) :
    (∀ remote, (sendSignatureLink remote s).1.showEmailModal = false ∧
      (sendSignatureLink remote s).1.email = "" ∧
      (sendSignatureLink remote s).1 = { s with email := "", showEmailModal := false }) ∧
    (sendSignatureLink (.resolved u) s).1 = (sendSignatureLink .rejected s).1 ∧
    (sendSignatureLink .rejected s).2 = [⟨.error, "Send failed"⟩] ∧
    (∀ d, s.docToRequest = some d →
      (sendSignatureLink (.resolved u) s).2 = [⟨.success, "Request sent"⟩]) ∧
    (Reachable s → (sendSignatureLink (.resolved u) s).2 = [⟨.success, "Request sent"⟩]) := by
  refine ⟨fun remote => ⟨rfl, rfl, rfl⟩, rfl, ?_, ?_, ?_⟩
  · cases h : s.docToRequest <;> simp [sendSignatureLink, sendToasts, h]
  · intro d hd
    simp [sendSignatureLink, sendToasts, hd]
  · intro hR
    obtain ⟨d, hd⟩ := reachable_open_has_target s hR hOpen
    simp [sendSignatureLink, sendToasts, hd]

/-- Witness for C4: after a load, a Request on the first document and an edit
of the email buffer the modal is open, and a rejected Send closes it and
empties the buffer, while a resolved Send raises the success toast. -/
theorem sendSignatureLink_resets_witness :
    (run initialSession openAndType).ui.showEmailModal = true ∧
    (run initialSession openAndType).ui.email = "a@b.c" ∧
    (sendSignatureLink .rejected (run initialSession openAndType).ui).1.showEmailModal
        = false ∧
    (sendSignatureLink .rejected (run initialSession openAndType).ui).1.email = "" ∧
    (sendSignatureLink (.resolved ()) (run initialSession openAndType).ui).2
        = [⟨.success, "Request sent"⟩] :=
  ⟨by decide, by decide,
    ((sendSignatureLink_resets (run initialSession openAndType).ui (by decide) ()).1
      .rejected).1,
    ((sendSignatureLink_resets (run initialSession openAndType).ui (by decide) ()).1
      .rejected).2.1,
    (sendSignatureLink_resets (run initialSession openAndType).ui (by decide) ()).2.2.2.2
      ⟨_, rfl⟩⟩

/-- C5: the Request handler makes the modal visible and sets the pending
target to the clicked document, but does not write the email buffer, and
Cancel does not write it either: after a load, a Request on the first
document, typing an address, Cancel and a Request on the second document, the
modal is open for the second document with the typed address still in the
buffer, not the empty string.  The other way of closing the modal, Send, does
empty the buffer, so a Request after Send opens with an empty buffer. -/
theorem requestClick_after_cancel_keeps_email :
    Reachable (run initialSession reopenAfterCancel).ui ∧
    (run initialSession reopenAfterCancel).ui =
      { documents := [docA, docB]
        selectedDoc := none
        filterStatus := "All"
        showEmailModal := true
        email := "a@b.c"
        docToRequest := some docB } ∧
    (run initialSession reopenAfterCancel).ui.email ≠ "" ∧
    (run initialSession reopenAfterSend).ui.email = "" ∧
    (run initialSession reopenAfterSend).ui.docToRequest = some docB ∧
    (∀ (s : DashboardState) (D : Document),
      requestClick D s = { s with docToRequest := some D, showEmailModal := true } ∧
      (requestClick D s).email = s.email ∧
      (cancelClick s).email = s.email) :=
  ⟨⟨_, rfl⟩, by decide, by decide, by decide, by decide, fun _ _ => ⟨rfl, rfl, rfl⟩⟩

/-- C6, as stated, fails: after a load, a Request on a document and Cancel,
and likewise after a load, a Request and a completed Send, the state is
reachable, the modal is closed, and the pending target is still the requested
document, not none. -/
theorem closed_modal_keeps_target :
    Reachable (run initialSession openThenCancel).ui ∧
    (run initialSession openThenCancel).ui.showEmailModal = false ∧
    (run initialSession openThenCancel).ui.docToRequest = some docA ∧
    Reachable (run initialSession openThenSend).ui ∧
    (run initialSession openThenSend).ui.showEmailModal = false ∧
    (run initialSession openThenSend).ui.docToRequest = some docA ∧
    ¬ (∀ s, Reachable s → s.showEmailModal = false → s.docToRequest = none) := by
  refine ⟨⟨_, rfl⟩, by decide, by decide, ⟨_, rfl⟩, by decide, by decide, ?_⟩
  intro h
  have hc := h (run initialSession openThenCancel).ui ⟨_, rfl⟩ (by decide)
  revert hc
  decide

/-- C6, amended: in every session, reachable or not, the selected document
for editing is none once the editing panel signals go-back, and closing the
signature-request modal, by Cancel or by Send completing with either outcome,
hides the modal and leaves the pending target as it was.  The pending target
is written by the Request button and by nothing else: every event that is not
a Request (a load, a filter change, Edit, go-back, an edit of the email
buffer, Cancel, a click on Send or Delete, the settlement of either call)
leaves it unchanged, through its handler and through a step, so after a
Request on a rendered document `D` the target is `D` and stays `D` along any
sequence of events until the next Request. -/
theorem close_resets_selection_keeps_target (t : Session) :
    (goBack t.ui).selectedDoc = none ∧
    (step t .goBack).ui.selectedDoc = none ∧
    (cancelClick t.ui).showEmailModal = false ∧
    (cancelClick t.ui).docToRequest = t.ui.docToRequest ∧
    (∀ remote, (sendSignatureLink remote t.ui).1.showEmailModal = false ∧
      (sendSignatureLink remote t.ui).1.docToRequest = t.ui.docToRequest) ∧
    (t.ui.showEmailModal = true → (step t .cancel).ui.showEmailModal = false) ∧
    (∀ k remote, k < t.sending.length →
      (step t (.sendSettle k remote)).ui.showEmailModal = false) ∧
    (∀ e : Event, e.isRequest = false →
      (e.handle t).1.ui.docToRequest = t.ui.docToRequest ∧
      (step t e).ui.docToRequest = t.ui.docToRequest) ∧
    (∀ es : List Event, (∀ e ∈ es, e.isRequest = false) →
      (run t es).ui.docToRequest = t.ui.docToRequest) ∧
    (∀ D, (requestClick D t.ui).docToRequest = some D) ∧
    (∀ D, D ∈ filteredDocs t.ui.documents t.ui.filterStatus →
      ∀ es : List Event, (∀ e ∈ es, e.isRequest = false) →
        (run t (.request D :: es)).ui.docToRequest = some D) := by
  refine ⟨rfl, ?_, rfl, rfl, fun _ => ⟨rfl, rfl⟩, ?_, ?_,
    fun e he => ⟨handle_keeps_target t e he, step_keeps_target t e he⟩,
    fun es hes => run_keeps_target t es hes, fun _ => rfl, ?_⟩
  · unfold step
    split
    · rfl
    · rename_i h
      simpa [Event.enabled] using h
  · intro hOpen
    simp [step, Event.enabled, Event.handle, hOpen, cancelClick]
  · intro k remote hk
    simp [step, Event.enabled, Event.handle, hk, sendSignatureLink]
  · intro D hD es hes
    have hrun : run t (.request D :: es) = run (step t (.request D)) es := rfl
    rw [hrun, run_keeps_target _ es hes]
    simp [step, Event.enabled, Event.handle, hD, requestClick]

/-- Witness for C6, amended: after a load and a Request on the first sample
document, then Cancel, Edit and go-back on the second document, a filter
change, a delete of the second document and a failed reload, the modal is
closed, the editing panel is closed and the target is still the first
document. -/
theorem close_resets_selection_keeps_target_witness :
    docA ∈ filteredDocs (run initialSession [loadAB]).ui.documents
      (run initialSession [loadAB]).ui.filterStatus ∧
    (run (run initialSession [loadAB]) (.request docA :: noRequestEvents)).ui.docToRequest
      = some docA ∧
    (run (run initialSession [loadAB]) (.request docA :: noRequestEvents)).ui.showEmailModal
      = false ∧
    (run (run initialSession [loadAB]) (.request docA :: noRequestEvents)).ui.selectedDoc
      = none ∧
    (run (run initialSession [loadAB]) (.request docA :: noRequestEvents)).ui.documents
      = [docA] :=
  ⟨by decide,
    (close_resets_selection_keeps_target (run initialSession [loadAB])).2.2.2.2.2.2.2.2.2.2
      docA (by decide) noRequestEvents (by decide),
    by decide, by decide, by decide⟩

/-! ## Access gate -/

/-- C7, as stated, fails: the gate takes no login destination; with the flag
false it redirects to the fixed path /login, so for the destination /signin
the result is not a redirect to that destination. -/
theorem ProtectedRoute_not_arbitrary_destination :
    ProtectedRoute (storeWith false) (View.element "Dashboard") ≠ View.navigate "/signin" ∧
    ¬ (∀ (L : String) (V : View), ProtectedRoute (storeWith false) V = View.navigate L) := by
  refine ⟨by decide, ?_⟩
  intro h
  have hc := h "/signin" (View.element "Dashboard")
  revert hc
  decide

/-- C7, amended: for every protected view `V`, `ProtectedRoute` returns `V`
unchanged when the authentication flag is true and returns a redirect to the
fixed login destination /login when the flag is false; the result is a
function of the flag and `V` only. -/
theorem ProtectedRoute_gate (state : RootState) (V : View) :
    (state.auth.isAuthenticated = true → ProtectedRoute state V = V) ∧
    (state.auth.isAuthenticated = false →
      ProtectedRoute state V = View.navigate "/login") ∧
    (∀ other : RootState, other.auth.isAuthenticated = state.auth.isAuthenticated →
      ProtectedRoute other V = ProtectedRoute state V) := by
  refine ⟨?_, ?_, ?_⟩
  · intro h
    simp [ProtectedRoute, h]
  · intro h
    simp [ProtectedRoute, h]
  · intro other h
    simp [ProtectedRoute, h]

/-- Witness for C7, amended: with the flag true the dashboard view is
returned as it is, and a store that differs outside the flag gives the same
result. -/
theorem ProtectedRoute_gate_witness :
    ProtectedRoute (storeWith true) (View.element "Dashboard") = View.element "Dashboard" ∧
    ProtectedRoute { auth := { isAuthenticated := true, others := [("user", "u1")] },
                     slices := [("theme", "dark")] } (View.element "Dashboard")
      = ProtectedRoute (storeWith true) (View.element "Dashboard") :=
  ⟨(ProtectedRoute_gate (storeWith true) (View.element "Dashboard")).1 rfl,
    (ProtectedRoute_gate (storeWith true) (View.element "Dashboard")).2.2 _ rfl⟩

/-! ## Identifier uniqueness -/

/-- C10, as stated, fails: a successful load whose response holds two
documents with the same identifier leaves a reachable collection in which two
documents share an identifier. -/
theorem duplicate_load_breaks_uniqueness :
    Reachable (run initialSession duplicateLoad).ui ∧
    (run initialSession duplicateLoad).ui.documents
      = [sampleDoc "1" "Pending", sampleDoc "1" "Signed"] ∧
    ¬ (ids (run initialSession duplicateLoad).ui.documents).Nodup :=
  ⟨⟨_, rfl⟩, by decide, by decide⟩

/-- C10, amended: starting from the empty collection at mount, if every
successful load along a trace of events receives a response whose documents
have pairwise distinct identifiers, then no two documents of the local
collection share an identifier after the trace; a successful delete keeps
identifiers distinct, and a load puts the response in place as it is. -/
theorem ids_unique_of_unique_loads (es : List Event)
    (hU : ∀ e ∈ es, e.loadsUnique = true) :
    (ids (run initialSession es).ui.documents).Nodup ∧
    (∀ (s : DashboardState) (docId : String) (remote : ApiOutcome Unit),
      (ids s.documents).Nodup → (ids (handleDelete docId remote s).1.documents).Nodup) := by
  refine ⟨?_, ?_⟩
  · exact run_invariant (fun t => (ids t.ui.documents).Nodup) (fun e => e.loadsUnique = true)
      (fun t e he ht => step_ids_nodup t e he ht) es initialSession hU (by decide)
  · intro s docId remote h
    cases remote with
    | rejected => exact h
    | resolved u => exact ids_removeById_nodup docId s.documents h

/-- Witness for C10, amended: a load of the two sample documents followed by
a successful delete of the first leaves distinct identifiers. -/
theorem ids_unique_of_unique_loads_witness :
    (ids (run initialSession
      [loadAB, .deleteClick "1", .deleteSettle "1" (.resolved ())]).ui.documents).Nodup ∧
    (run initialSession
      [loadAB, .deleteClick "1", .deleteSettle "1" (.resolved ())]).ui.documents = [docB] :=
  ⟨(ids_unique_of_unique_loads [loadAB, .deleteClick "1", .deleteSettle "1" (.resolved ())]
    (by decide)).1, by decide⟩

end DocsSign
